import Mathlib

/-!
Verification of the agentic code-generation workflow of the v0-clone
repository (`src/inngest/functions.js` and `src/inngest/utils.js`).

The JavaScript source is shallowly embedded: JS objects used as
string-to-string maps become association lists with unique keys where
assignment (`obj[k] = v`) keeps an existing key in place and appends a
new key at the end, matching JS property-order semantics; thrown
exceptions become `Except String`; JS truthiness of strings (`""` is
falsy) and of arrays (always truthy) is modelled explicitly.
-/

set_option autoImplicit false

namespace V0Clone

/-! ## JS object maps (string keys, string values) -/

/-- JS property assignment `obj[k] = v` on an object represented as an
association list in property order: an existing key keeps its position
and gets the new value, a new key is appended at the end. -/
def setKey : List (String × String) → String → String → List (String × String)
  | [], k, v => [(k, v)]
  | (k', v') :: rest, k, v =>
    if k' = k then (k, v) :: rest else (k', v') :: setKey rest k v

/-- JS `Object.keys(obj)`: the keys in property order. -/
def objKeys (m : List (String × String)) : List String :=
  m.map Prod.fst

/-- JS object spread `{ ...a, ...b }`: every property of `b` is assigned
into `a`, left to right. -/
def spreadInto (a b : List (String × String)) : List (String × String) :=
  b.foldl (fun m kv => setKey m kv.1 kv.2) a

/-! ## Stored messages and the context-loader query
(`get-previous-messages` step, functions.js lines 88-143) -/

/-- One stored message row of the project, with its (optional) fragment's
`files` JSON object. In the embedding the project's message table is a
list already sorted by `createdAt` ascending, i.e. chronological order,
which is what `orderBy: { createdAt: "asc" }` yields. -/
structure DbMessage where
  role : String
  type : String
  content : String
  fragment : Option (List (String × String))
  deriving Repr, DecidableEq

/-- Prisma query of the `get-previous-messages` step: messages of the
project whose `type` is not `"ERROR"`, ordered by `createdAt` ascending,
with `take: 30`. `take` on an ascending-ordered query returns the FIRST
30 rows of the filtered, ordered result set. -/
def queryMessages (dbMsgs : List DbMessage) : List DbMessage :=
  ((dbMsgs.filter (fun m => m.type ≠ "ERROR")).take 30)

/-- A message formatted for the agent's context
(the object pushed onto `formattedMessages`). -/
structure FormattedMessage where
  type : String
  role : String
  content : String
  deriving Repr, DecidableEq

/-- Annotation appended to an assistant message that carries fragment
files: `"\n\n[Files created/modified: a, b]"`. -/
def filesAnnotation (fileNames : List String) : String :=
  "\n\n[Files created/modified: " ++ String.intercalate ", " fileNames ++ "]"

/-- Per-message body of the context-loader loop (functions.js lines
113-136): merges an assistant message's fragment files into the running
`latestFiles` map and formats the message, returning the formatted
message together with the updated map. -/
def processMessage (m : DbMessage) (latestFiles : List (String × String)) :
    FormattedMessage × List (String × String) :=
  if m.role = "ASSISTANT" then
    match m.fragment with
    | some frag =>
      let fileNames := objKeys frag
      let latestFiles' := spreadInto latestFiles frag
      let content' :=
        if fileNames.length > 0 then m.content ++ filesAnnotation fileNames
        else m.content
      (⟨"text", "assistant", content'⟩, latestFiles')
    | none => (⟨"text", "assistant", m.content⟩, latestFiles)
  else (⟨"text", "user", m.content⟩, latestFiles)

/-- The context-loader loop over the fetched messages, accumulating
`formattedMessages` and `latestFiles`. -/
def processMessages : List DbMessage → List FormattedMessage →
    List (String × String) → List FormattedMessage × List (String × String)
  | [], acc, latestFiles => (acc, latestFiles)
  | m :: rest, acc, latestFiles =>
    let (fm, latestFiles') := processMessage m latestFiles
    processMessages rest (acc ++ [fm]) latestFiles'

/-- The whole `get-previous-messages` step: query, then the loop,
starting from an empty `formattedMessages` array and an empty
`latestFiles` object. -/
def getPreviousMessages (dbMsgs : List DbMessage) :
    List FormattedMessage × List (String × String) :=
  processMessages (queryMessages dbMsgs) [] []

/-! ## Error classification (functions.js lines 450-452) -/

/-- JS truthiness test `!s` for a string: only the empty string is falsy. -/
def jsStringFalsy (s : String) : Bool :=
  s = ""

/-- Error detection of the run:
`!result.state.data.summary || Object.keys(result.state.data.files || {}).length === 0`. -/
def isError (summary : String) (files : List (String × String)) : Bool :=
  jsStringFalsy summary || (objKeys files).length == 0

/-! ## Agent result messages and `lastAssistantTextMessageContent`
(utils.js) -/

/-- One part of array-shaped message content; the extractor reads its
`text` field. -/
structure TextPart where
  text : String
  deriving Repr, DecidableEq

/-- Message content is either a plain string or an array of
`{text}`-shaped parts (the model-boundary contract). -/
inductive MsgContent where
  | str : String → MsgContent
  | arr : List TextPart → MsgContent
  deriving Repr, DecidableEq

/-- One message of an agent result's `output` array. `content` is
`none` when the field is absent. -/
structure AgentMessage where
  role : String
  content : Option MsgContent
  deriving Repr, DecidableEq

/-- JS truthiness of `message?.content`: absent content and the empty
string are falsy; an array (even an empty one) is truthy. -/
def jsContentTruthy : Option MsgContent → Bool
  | none => false
  | some (.str s) => !(jsStringFalsy s)
  | some (.arr _) => true

/-- Embedding of `lastAssistantTextMessageContent(result)` (utils.js):
`findLastIndex` of a message with role `"assistant"` (indexing with the
resulting `-1` yields `undefined`, modelled by `reverse.find?`), then
`message?.content ? (typeof content === "string" ? content :
content.map(c => c.text).join("")) : undefined`. -/
def lastAssistantTextMessageContent (output : List AgentMessage) : Option String :=
  match output.reverse.find? (fun m => m.role == "assistant") with
  | none => none
  | some m =>
    if jsContentTruthy m.content then
      match m.content with
      | some (.str s) => some s
      | some (.arr parts) => some (String.join (parts.map (fun p => p.text)))
      | none => none
    else none

/-! ## Agent loop: lifecycle hook, router, bounded network iteration
(functions.js lines 322-374) -/

/-- The completion marker looked for by the lifecycle hook. -/
def taskSummaryMarker : String :=
  "<task_summary>"

/-- JS `s.includes("<task_summary>")`: substring containment, as
infix containment on the character lists. -/
def containsMarker (s : String) : Bool :=
  decide (taskSummaryMarker.toList <:+: s.toList)

/-- Embedding of the `onResponse` lifecycle hook: extract the last
assistant text message of the turn; when it is truthy and includes the
completion marker, the summary becomes that whole text, otherwise the
summary is unchanged. -/
def onResponse (output : List AgentMessage) (summary : String) : String :=
  match lastAssistantTextMessageContent output with
  | none => summary
  | some t => if !(jsStringFalsy t) && containsMarker t then t else summary

/-- Decision of the network router: halt (router returns `undefined`)
or run the code agent once more. -/
inductive RouterDecision where
  | halt
  | runAgent
  deriving Repr, DecidableEq

/-- Embedding of the router (functions.js lines 357-367): stop when the
summary is truthy, otherwise continue with the code agent. -/
def router (summary : String) : RouterDecision :=
  if jsStringFalsy summary then .runAgent else .halt

/-- The `maxIter` bound passed to `createNetwork`. -/
def maxIter : Nat :=
  10

/-- Iteration of the agent network: while fewer than `maxIter` agent
turns have run, consult the router; on `halt` stop, otherwise run the
agent, whose turn yields `responses i` as its output, and apply the
`onResponse` hook to the summary. Returns the final summary and the
number of agent turns performed. `fuel` is the number of turns still
allowed, `iters` the number performed so far. -/
def runLoop (responses : Nat → List AgentMessage) :
    Nat → Nat → String → String × Nat
  | 0, iters, summary => (summary, iters)
  | fuel + 1, iters, summary =>
    match router summary with
    | .halt => (summary, iters)
    | .runAgent => runLoop responses fuel (iters + 1) (onResponse (responses iters) summary)

/-- Embedding of `network.run`: the loop starts with `maxIter` turns
allowed, zero turns performed, and the initial summary `""` set by
`createState`. -/
def runNetwork (responses : Nat → List AgentMessage) : String × Nat :=
  runLoop responses maxIter 0 ""

/-! ## Title and response generation (functions.js lines 414-440) -/

/-- Generator output content: either a plain string or an array of
strings, which `content.map(c => c).join("")` concatenates. -/
inductive GenContent where
  | str : String → GenContent
  | arr : List String → GenContent
  deriving Repr, DecidableEq

/-- One element of a generator agent's `output` array. -/
structure GenOutput where
  type : String
  content : GenContent
  deriving Repr, DecidableEq

/-- Shared extraction logic of `generateFragmentTitle` and
`generateResponse`: reads `output[0].type`, which on an empty `output`
array is a property access on `undefined` and throws a `TypeError`
(modelled by `Except.error`); a non-`"text"` type yields the fallback
literal; array content is concatenated; string content is returned
directly. -/
def extractFirstText (fallback : String) (output : List GenOutput) :
    Except String String :=
  match output with
  | [] => .error "TypeError: Cannot read properties of undefined (reading type)"
  | o :: _ =>
    if o.type ≠ "text" then .ok fallback
    else
      match o.content with
      | .arr parts => .ok (String.join parts)
      | .str s => .ok s

/-- Embedding of `generateFragmentTitle` with its fallback `"Untitled"`. -/
def generateFragmentTitle (output : List GenOutput) : Except String String :=
  extractFirstText "Untitled" output

/-- Embedding of `generateResponse` with its fallback `"Here you go"`. -/
def generateResponse (output : List GenOutput) : Except String String :=
  extractFirstText "Here you go" output

/-! ## Terminal tool handler (functions.js lines 216-247) -/

/-- The failure string built by the terminal tool's catch block:
`` `Command failed: ${error} \n stdout: ${buffers.stdout}\n stderr: ${buffers.stderr}` ``. -/
def commandFailedMessage (error bufOut bufErr : String) : String :=
  "Command failed: " ++ error ++ " \n stdout: " ++ bufOut ++ "\n stderr: " ++ bufErr

/-- Embedding of the terminal tool handler. `connectErr` is the error
thrown by `Sandbox.connect`, if any (thrown before any output is
streamed, so both buffers are still `""`); `stdoutChunks` and
`stderrChunks` are the chunks delivered to the `onStdout`/`onStderr`
callbacks, each appended to its buffer; `outcome` is either the thrown
error of `sandbox.commands.run` or its `result.stdout` value. The catch
block converts every throw into the formatted failure string, so the
handler always returns a plain string. -/
def terminal (connectErr : Option String) (stdoutChunks stderrChunks : List String)
    (outcome : Except String String) : String :=
  match connectErr with
  | some e => commandFailedMessage e "" ""
  | none =>
    match outcome with
    | .ok stdout => stdout
    | .error e =>
      commandFailedMessage e (String.join stdoutChunks) (String.join stderrChunks)

/-! ## createOrUpdateFiles tool handler (functions.js lines 252-289) -/

/-- Embedding of the write loop inside the `createOrUpdateFiles` step.
`const updatedFiles = network?.state?.data.files || {}` binds
`updatedFiles` to the very object held in the network state (an object,
even an empty one, is truthy, so the `|| {}` fallback never replaces
it), hence each `updatedFiles[file.path] = file.content` after a
successful sandbox write mutates the shared state map in place. `shared`
is that map; `failAt` is the index of the batch entry whose sandbox
write throws (entries before it succeed), and `errMsg` the stringified
thrown error. Returns the step's return value (`updatedFiles` on
success, the `"Error" + error` string from the catch block on a throw)
together with the shared map as mutated so far. -/
def writeLoop : List (String × String) → List (String × String) → Option Nat →
    String → Nat → Except String (List (String × String)) × List (String × String)
  | shared, [], _, _, _ => (.ok shared, shared)
  | shared, (path, content) :: rest, failAt, errMsg, i =>
    if failAt = some i then (.error ("Error" ++ errMsg), shared)
    else writeLoop (setKey shared path content) rest failAt errMsg (i + 1)

/-- Embedding of the whole `createOrUpdateFiles` handler: run the write
loop, then `if (typeof newFiles === "object") network.state.data.files =
newFiles` — the assignment happens only when the step returned the map
(success); on an error string the assignment is skipped, but the shared
map retains the in-place mutations of the writes that succeeded before
the throw. Returns the step's return value and the final
`network.state.data.files`. -/
def createOrUpdateFiles (networkFiles : List (String × String))
    (batch : List (String × String)) (failAt : Option Nat) (errMsg : String) :
    Except String (List (String × String)) × List (String × String) :=
  let r := writeLoop networkFiles batch failAt errMsg 0
  match r.1 with
  | .ok m => (r.1, m)
  | .error _ => (r.1, r.2)

/-! ## The save-result step (functions.js lines 469-498) -/

/-- The fragment row nested in a RESULT message. -/
structure Fragment where
  sandboxUrl : String
  title : String
  files : List (String × String)
  deriving Repr, DecidableEq

/-- The single message row written by the `save-result` step. -/
structure SavedMessage where
  role : String
  type : String
  content : String
  fragment : Option Fragment
  deriving Repr, DecidableEq

/-- Embedding of the `save-result` step: on `isError`, one
ASSISTANT/ERROR message with the generic apology and no fragment;
otherwise one ASSISTANT/RESULT message whose content is
`generateResponse()` and whose single fragment carries the sandbox URL,
`generateFragmentTitle()`, and the loop's final file map. The generator
extractions run only on the success path and may throw (empty `output`),
which the step does not catch. -/
def saveResult (summary : String) (files : List (String × String))
    (responseOutput titleOutput : List GenOutput) (sandboxUrl : String) :
    Except String SavedMessage :=
  if isError summary files then
    .ok ⟨"ASSISTANT", "ERROR", "Something went wrong. Please try again", none⟩
  else do
    let response ← generateResponse responseOutput
    let title ← generateFragmentTitle titleOutput
    .ok ⟨"ASSISTANT", "RESULT", response, some ⟨sandboxUrl, title, files⟩⟩

/-! ## Shared helper lemmas -/

/-- A loop whose summary is already truthy returns immediately: the
router halts before any further agent turn. -/
theorem runLoop_halted (responses : Nat → List AgentMessage) (fuel iters : Nat)
    (summary : String) (h : summary ≠ "") :
    runLoop responses fuel iters summary = (summary, iters) := by
  cases fuel with
  | zero => rfl
  | succ n => simp [runLoop, router, jsStringFalsy, h]

/-- An iteration-count bound for the loop: at most `fuel` further agent
turns happen. -/
theorem runLoop_iters_le (responses : Nat → List AgentMessage) (fuel : Nat) :
    ∀ iters summary, (runLoop responses fuel iters summary).2 ≤ iters + fuel := by
  induction fuel with
  | zero => intro iters summary; simp [runLoop]
  | succ n ih =>
    intro iters summary
    simp only [runLoop]
    cases router summary with
    | halt => simp
    | runAgent =>
      calc (runLoop responses n (iters + 1) (onResponse (responses iters) summary)).2
          ≤ (iters + 1) + n := ih (iters + 1) _
        _ = iters + (n + 1) := by omega

/-- If the `onResponse` hook changes the summary, the turn's last
assistant text message existed and contained the completion marker, and
the new summary is that very text. -/
theorem onResponse_changed (output : List AgentMessage) (summary : String)
    (h : onResponse output summary ≠ summary) :
    ∃ t, lastAssistantTextMessageContent output = some t ∧
      containsMarker t = true ∧ onResponse output summary = t := by
  unfold onResponse at *
  cases hl : lastAssistantTextMessageContent output with
  | none => simp [hl] at h
  | some t =>
    simp only [hl] at h ⊢
    by_cases hc : (!(jsStringFalsy t) && containsMarker t) = true
    · exact ⟨t, rfl, (Bool.and_eq_true _ _ ▸ hc).2, by simp [hc]⟩
    · simp [hc] at h

/-- If the loop starts from an empty summary and ends with a non-empty
one, the summary was set by the `onResponse` hook at some turn `i`
performed by the loop, from an empty summary. -/
theorem runLoop_summary_source (responses : Nat → List AgentMessage) (fuel : Nat) :
    ∀ iters, (runLoop responses fuel iters "").1 ≠ "" →
      ∃ i, iters ≤ i ∧ i < (runLoop responses fuel iters "").2 ∧
        onResponse (responses i) "" = (runLoop responses fuel iters "").1 := by
  induction fuel with
  | zero => intro iters h; simp [runLoop] at h
  | succ n ih =>
    intro iters h
    have hrt : router "" = RouterDecision.runAgent := by simp [router, jsStringFalsy]
    simp only [runLoop, hrt] at h ⊢
    by_cases hs : onResponse (responses iters) "" = ""
    · rw [hs] at h ⊢
      obtain ⟨i, h1, h2, h3⟩ := ih (iters + 1) h
      exact ⟨i, by omega, h2, h3⟩
    · rw [runLoop_halted responses n (iters + 1) _ hs] at h ⊢
      exact ⟨iters, le_refl _, by omega, rfl⟩

/-- Fold of the fragment files of the ASSISTANT turns that carry one,
in chronological order. -/
def assistantFragments (msgs : List DbMessage) : List (List (String × String)) :=
  msgs.filterMap (fun m => if m.role = "ASSISTANT" then m.fragment else none)

/-- The `latestFiles` accumulator of the context-loader loop is the
left fold of `spreadInto` over the assistant fragments, for any starting
accumulators. -/
theorem processMessages_latestFiles (msgs : List DbMessage) :
    ∀ acc latestFiles, (processMessages msgs acc latestFiles).2 =
      (assistantFragments msgs).foldl spreadInto latestFiles := by
  induction msgs with
  | nil => intro acc latestFiles; simp [processMessages, assistantFragments]
  | cons m rest ih =>
    intro acc latestFiles
    simp only [processMessages, assistantFragments, List.filterMap_cons]
    by_cases hr : m.role = "ASSISTANT"
    · cases hf : m.fragment with
      | none => simp [processMessage, hr, hf, ih, assistantFragments]
      | some frag => simp [processMessage, hr, hf, ih, assistantFragments]
    · simp [processMessage, hr, ih, assistantFragments]

/-! ## Claim theorems -/

/-- C1: for every run, the outcome is classified as ERROR exactly when
the final summary is the empty string or the final file map has no
entries; in every other case it is classified RESULT, and the two
outcomes exclude each other (the classifier is a single boolean). -/
theorem isError_iff_empty_summary_or_empty_files (summary : String)
    (files : List (String × String)) :
    (isError summary files = true ↔ (summary = "" ∨ files = [])) ∧
    (isError summary files = false ↔ (summary ≠ "" ∧ files ≠ [])) := by
  constructor
  · simp [isError, jsStringFalsy, objKeys, List.length_eq_zero]
  · simp [isError, jsStringFalsy, objKeys, List.length_eq_zero, not_or]

/-- C1 witness: the classifier evaluated at concrete inputs. -/
theorem isError_iff_witness :
    isError "" [("a", "b")] = true ∧ isError "s" [("a", "b")] = false :=
  ⟨(isError_iff_empty_summary_or_empty_files "" [("a", "b")]).1.mpr (Or.inl rfl),
   (isError_iff_empty_summary_or_empty_files "s" [("a", "b")]).2.mpr
     (by constructor <;> simp)⟩

/-- A project history with 31 non-error messages in chronological
order, the failing input of C2. -/
def msgs31 : List DbMessage :=
  (List.range 31).map (fun i => ⟨"USER", "RESULT", toString i, none⟩)

/-- C2 (code bug): on a history of 31 non-error messages the query
`orderBy createdAt asc, take 30` returns the OLDEST 30 and drops the
newest message `"30"`, while the stated behaviour (and the source's own
comment "limit to last 30") requires the most recent 30, dropping from
the oldest end. -/
theorem queryMessages_drops_newest :
    queryMessages msgs31 = msgs31.take 30 ∧
    (⟨"USER", "RESULT", "30", none⟩ : DbMessage) ∈ msgs31 ∧
    (⟨"USER", "RESULT", "30", none⟩ : DbMessage) ∉ queryMessages msgs31 := by
  refine ⟨by decide, by decide, by decide⟩

/-- C3: the agent network performs at most 10 iterations and then
terminates, for every sequence of model responses, also when no
response ever contains the completion marker. -/
theorem runNetwork_at_most_ten_iterations (responses : Nat → List AgentMessage) :
    (runNetwork responses).2 ≤ 10 := by
  have h := runLoop_iters_le responses maxIter 0 ""
  simpa [runNetwork, maxIter] using h

/-- C4: the loop invariant of the agent network. If the final summary is
non-empty then at some performed turn `i` the last assistant-authored
text message of that turn contained `"<task_summary>"` (and the summary
is that text); and a non-empty summary makes the router halt, so the
loop returns without invoking the agent again. -/
theorem summary_only_from_marker (responses : Nat → List AgentMessage) :
    ((runNetwork responses).1 ≠ "" →
      ∃ i t, i < (runNetwork responses).2 ∧
        lastAssistantTextMessageContent (responses i) = some t ∧
        containsMarker t = true ∧ (runNetwork responses).1 = t) ∧
    (∀ s, s ≠ "" → router s = RouterDecision.halt) ∧
    (∀ fuel iters s, s ≠ "" → runLoop responses fuel iters s = (s, iters)) := by
  refine ⟨?_, ?_, ?_⟩
  · intro h
    obtain ⟨i, _, hlt, hset⟩ := runLoop_summary_source responses maxIter 0 h
    have hne : onResponse (responses i) "" ≠ "" := by rw [hset]; exact h
    obtain ⟨t, h1, h2, h3⟩ := onResponse_changed (responses i) "" hne
    exact ⟨i, t, hlt, h1, h2, hset.symm.trans h3⟩
  · intro s hs; simp [router, jsStringFalsy, hs]
  · intro fuel iters s hs; exact runLoop_halted responses fuel iters s hs

/-- C4 witness: a concrete run whose first turn carries the marker; the
loop halts after one iteration with that turn's text as the summary. -/
theorem summary_only_from_marker_witness :
    ∃ i t, i < (runNetwork (fun _ => [⟨"assistant", some (.str "done <task_summary> ok")⟩])).2 ∧
      lastAssistantTextMessageContent
        ((fun _ => [(⟨"assistant", some (.str "done <task_summary> ok")⟩ : AgentMessage)]) i) = some t ∧
      containsMarker t = true ∧
      (runNetwork (fun _ => [⟨"assistant", some (.str "done <task_summary> ok")⟩])).1 = t :=
  (summary_only_from_marker (fun _ => [⟨"assistant", some (.str "done <task_summary> ok")⟩])).1
    (by decide)

/-- C5: the `latestFiles` map produced by the context loader equals the
left-to-right fold, in chronological order, of each fragment-carrying
ASSISTANT turn's files into an initially empty map, later entries
overwriting earlier ones at the same path (the overwrite is the JS
spread `{ ...latestFiles, ...fragment.files }`). -/
theorem latestFiles_eq_fold (dbMsgs : List DbMessage) :
    (getPreviousMessages dbMsgs).2 =
      (assistantFragments (queryMessages dbMsgs)).foldl spreadInto [] ∧
    ∀ msgs : List DbMessage, (processMessages msgs [] []).2 =
      (assistantFragments msgs).foldl spreadInto [] := by
  constructor
  · exact processMessages_latestFiles (queryMessages dbMsgs) [] []
  · intro msgs; exact processMessages_latestFiles msgs [] []

/-- C5 witness: two fragment-carrying turns folded in order, the later
one overwriting the shared path. -/
theorem latestFiles_eq_fold_witness :
    (getPreviousMessages
        [⟨"ASSISTANT", "RESULT", "m1", some [("a", "1"), ("b", "2")]⟩,
         ⟨"USER", "RESULT", "m2", none⟩,
         ⟨"ASSISTANT", "RESULT", "m3", some [("a", "9")]⟩]).2 =
      (assistantFragments (queryMessages
        [⟨"ASSISTANT", "RESULT", "m1", some [("a", "1"), ("b", "2")]⟩,
         ⟨"USER", "RESULT", "m2", none⟩,
         ⟨"ASSISTANT", "RESULT", "m3", some [("a", "9")]⟩])).foldl spreadInto [] :=
  (latestFiles_eq_fold
    [⟨"ASSISTANT", "RESULT", "m1", some [("a", "1"), ("b", "2")]⟩,
     ⟨"USER", "RESULT", "m2", none⟩,
     ⟨"ASSISTANT", "RESULT", "m3", some [("a", "9")]⟩]).1

/-- C6: the save-result step writes exactly one ASSISTANT message: on an
error classification an ERROR-typed message carrying the generic apology
and no fragment, otherwise a RESULT-typed message with exactly one
fragment whose files are the loop's final file map. -/
theorem saveResult_one_message (summary : String) (files : List (String × String))
    (responseOutput titleOutput : List GenOutput) (url : String) :
    (isError summary files = true →
      saveResult summary files responseOutput titleOutput url =
        .ok ⟨"ASSISTANT", "ERROR", "Something went wrong. Please try again", none⟩) ∧
    (isError summary files = false →
      ∀ resp title, generateResponse responseOutput = Except.ok resp →
        generateFragmentTitle titleOutput = Except.ok title →
        saveResult summary files responseOutput titleOutput url =
          .ok ⟨"ASSISTANT", "RESULT", resp, some ⟨url, title, files⟩⟩) := by
  constructor
  · intro h; simp [saveResult, h]
  · intro h resp title hr ht
    simp [saveResult, h, hr, ht, Except.bind, Bind.bind]

/-- C6 witness: the step evaluated on a failed run and on a successful
run with concrete generator outputs. -/
theorem saveResult_one_message_witness :
    saveResult "" [] [] [] "u" =
      .ok ⟨"ASSISTANT", "ERROR", "Something went wrong. Please try again", none⟩ ∧
    saveResult "s" [("a", "b")] [⟨"text", .str "resp"⟩] [⟨"text", .str "ttl"⟩] "u" =
      .ok ⟨"ASSISTANT", "RESULT", "resp", some ⟨"u", "ttl", [("a", "b")]⟩⟩ :=
  ⟨(saveResult_one_message "" [] [] [] "u").1 (by decide),
   (saveResult_one_message "s" [("a", "b")] [⟨"text", .str "resp"⟩]
      [⟨"text", .str "ttl"⟩] "u").2 (by decide) "resp" "ttl" rfl rfl⟩

/-- C7 counterexample: a two-file batch whose second sandbox write
throws. The step returns the error string and the state assignment is
skipped, yet the shared file map has changed from `[]` to the first
write's entry, because the working map aliases the state map. -/
theorem createOrUpdateFiles_mutates_despite_error :
    createOrUpdateFiles [] [("a.txt", "1"), ("b.txt", "2")] (some 1) "E" =
      (.error "ErrorE", [("a.txt", "1")]) ∧
    ([("a.txt", "1")] : List (String × String)) ≠ ([] : List (String × String)) :=
  ⟨rfl, by decide⟩

/-- Behaviour of the write loop when the sandbox write at offset `j`
of the remaining batch throws: the step result is the error string and
the shared map holds exactly the writes before the failure. -/
theorem writeLoop_failure (batch : List (String × String)) :
    ∀ (shared : List (String × String)) (i j : Nat) (errMsg : String),
      j < batch.length →
      writeLoop shared batch (some (i + j)) errMsg i =
        (.error ("Error" ++ errMsg),
         (batch.take j).foldl (fun m kv => setKey m kv.1 kv.2) shared) := by
  induction batch with
  | nil => intro shared i j errMsg h; simp at h
  | cons pc rest ih =>
    intro shared i j errMsg h
    obtain ⟨p, c⟩ := pc
    cases j with
    | zero => simp [writeLoop]
    | succ j' =>
      have hne : ¬ ((some (i + (j' + 1)) : Option Nat) = some i) := by
        simp only [Option.some.injEq]
        omega
      simp only [writeLoop, if_neg hne]
      have harith : i + (j' + 1) = (i + 1) + j' := by omega
      rw [harith]
      rw [ih (setKey shared p c) (i + 1) j' errMsg (by simpa using h)]
      rfl

/-- C7 amended: when the sandbox write of batch entry `j` raises, the
step computation returns the error string `"Error" + error` and the
final assignment to the state is skipped; but because the working map
aliases `AgentState.files`, the shared map ends up equal to the initial
map overwritten with exactly the batch entries before index `j` — the
pre-failure writes ARE reflected in memory. -/
theorem createOrUpdateFiles_failure_spec (networkFiles batch : List (String × String))
    (j : Nat) (errMsg : String) (h : j < batch.length) :
    createOrUpdateFiles networkFiles batch (some j) errMsg =
      (.error ("Error" ++ errMsg),
       (batch.take j).foldl (fun m kv => setKey m kv.1 kv.2) networkFiles) := by
  have hw := writeLoop_failure batch networkFiles 0 j errMsg h
  simp only [Nat.zero_add] at hw
  simp [createOrUpdateFiles, hw]

/-- C7 amended witness: the two-file batch with the second write
failing, evaluated through the amended statement. -/
theorem createOrUpdateFiles_failure_spec_witness :
    createOrUpdateFiles [] [("a", "1"), ("b", "2")] (some 1) "E" =
      (.error ("Error" ++ "E"),
       (([("a", "1"), ("b", "2")] : List (String × String)).take 1).foldl
         (fun m kv => setKey m kv.1 kv.2) []) :=
  createOrUpdateFiles_failure_spec [] [("a", "1"), ("b", "2")] 1 "E" (by decide)

/-- C8: the terminal tool returns the captured stdout on success; when
sandbox connect or command run raises it returns the formatted failure
string built from the thrown error and both captured buffers (both still
empty when connect itself threw), and that format contains both buffers;
the handler is a total function into strings, so no exception escapes
the tool boundary. -/
theorem terminal_spec (connectErr : Option String)
    (stdoutChunks stderrChunks : List String) (outcome : Except String String) :
    (∀ s, connectErr = none → outcome = Except.ok s →
      terminal connectErr stdoutChunks stderrChunks outcome = s) ∧
    (∀ e, connectErr = some e →
      terminal connectErr stdoutChunks stderrChunks outcome =
        commandFailedMessage e "" "") ∧
    (∀ e, connectErr = none → outcome = Except.error e →
      terminal connectErr stdoutChunks stderrChunks outcome =
        commandFailedMessage e (String.join stdoutChunks) (String.join stderrChunks)) ∧
    (∀ e bufOut bufErr, ∃ p q,
      commandFailedMessage e bufOut bufErr = p ++ bufOut ++ (q ++ bufErr)) := by
  refine ⟨?_, ?_, ?_, ?_⟩
  · intro s h1 h2; simp [terminal, h1, h2]
  · intro e h1; simp [terminal, h1]
  · intro e h1 h2; simp [terminal, h1, h2]
  · intro e bufOut bufErr
    exact ⟨"Command failed: " ++ e ++ " \n stdout: ", "\n stderr: ",
      by simp [commandFailedMessage, String.append_assoc]⟩

/-- C8 witness: the three branches at concrete commands. -/
theorem terminal_spec_witness :
    terminal none ["out"] ["err"] (Except.ok "ok") = "ok" ∧
    terminal (some "boom") [] [] (Except.ok "y") = commandFailedMessage "boom" "" "" ∧
    terminal none ["o1", "o2"] ["e1"] (Except.error "bad") =
      commandFailedMessage "bad" (String.join ["o1", "o2"]) (String.join ["e1"]) :=
  ⟨(terminal_spec none ["out"] ["err"] (Except.ok "ok")).1 "ok" rfl rfl,
   (terminal_spec (some "boom") [] [] (Except.ok "y")).2.1 "boom" rfl,
   (terminal_spec none ["o1", "o2"] ["e1"] (Except.error "bad")).2.2.1 "bad" rfl rfl⟩

/-- C9 counterexample: on an empty model `output` array, reading
`output[0].type` is a property access on `undefined`, so both
generators throw a `TypeError` instead of returning a fallback — the
claim's "never throws for any model output shape" fails at `[]`. -/
theorem generator_throws_on_empty_output :
    generateFragmentTitle [] =
      .error "TypeError: Cannot read properties of undefined (reading type)" ∧
    generateResponse [] =
      .error "TypeError: Cannot read properties of undefined (reading type)" :=
  ⟨rfl, rfl⟩

/-- C9 amended: for every model output whose `output` array is
non-empty, a non-text-typed first element yields the fallback literal,
string content is returned directly, array content is concatenated in
order, and neither generator throws; on an empty `output` array the
generators throw a `TypeError`. -/
theorem generator_spec (o : GenOutput) (rest : List GenOutput) :
    (o.type ≠ "text" →
      generateFragmentTitle (o :: rest) = .ok "Untitled" ∧
      generateResponse (o :: rest) = .ok "Here you go") ∧
    (∀ s, o.type = "text" → o.content = .str s →
      generateFragmentTitle (o :: rest) = .ok s ∧
      generateResponse (o :: rest) = .ok s) ∧
    (∀ parts, o.type = "text" → o.content = .arr parts →
      generateFragmentTitle (o :: rest) = .ok (String.join parts) ∧
      generateResponse (o :: rest) = .ok (String.join parts)) ∧
    (∃ r1 r2, generateFragmentTitle (o :: rest) = Except.ok r1 ∧
      generateResponse (o :: rest) = Except.ok r2) := by
  refine ⟨?_, ?_, ?_, ?_⟩
  · intro h
    constructor <;> simp [generateFragmentTitle, generateResponse, extractFirstText, h]
  · intro s ht hc
    constructor <;> simp [generateFragmentTitle, generateResponse, extractFirstText, ht, hc]
  · intro parts ht hc
    constructor <;> simp [generateFragmentTitle, generateResponse, extractFirstText, ht, hc]
  · by_cases ht : o.type = "text"
    · cases hc : o.content with
      | str s =>
        exact ⟨s, s, by simp [generateFragmentTitle, extractFirstText, ht, hc],
          by simp [generateResponse, extractFirstText, ht, hc]⟩
      | arr parts =>
        exact ⟨String.join parts, String.join parts,
          by simp [generateFragmentTitle, extractFirstText, ht, hc],
          by simp [generateResponse, extractFirstText, ht, hc]⟩
    · exact ⟨"Untitled", "Here you go",
        by simp [generateFragmentTitle, extractFirstText, ht],
        by simp [generateResponse, extractFirstText, ht]⟩

/-- C9 amended witness: array-shaped content is concatenated in order. -/
theorem generator_spec_witness :
    generateFragmentTitle [⟨"text", .arr ["He", "llo"]⟩] =
      .ok (String.join ["He", "llo"]) ∧
    generateResponse [⟨"text", .arr ["He", "llo"]⟩] =
      .ok (String.join ["He", "llo"]) :=
  (generator_spec ⟨"text", .arr ["He", "llo"]⟩ []).2.2.1 ["He", "llo"] rfl rfl

/-- Find of the last assistant message when the output decomposes as a
prefix, the message, and an assistant-free suffix. -/
theorem find_last_assistant (pre post : List AgentMessage) (m : AgentMessage)
    (hm : m.role = "assistant") (hpost : ∀ m' ∈ post, m'.role ≠ "assistant") :
    (pre ++ m :: post).reverse.find? (fun x => x.role == "assistant") = some m := by
  rw [List.reverse_append, List.reverse_cons, List.append_assoc]
  rw [List.find?_append]
  have h1 : post.reverse.find? (fun x => x.role == "assistant") = none := by
    rw [List.find?_eq_none]
    intro x hx
    simp only [List.mem_reverse] at hx
    simp [hpost x hx]
  rw [h1]
  simp [List.find?, hm]

/-- C10: `lastAssistantTextMessageContent` returns `undefined` rather
than throwing when the output has no assistant message or when the last
assistant message has no content, and concatenates the `text` fields of
array-shaped content of the last assistant message in order. -/
theorem lastAssistantTextMessageContent_spec (output : List AgentMessage) :
    ((∀ m ∈ output, m.role ≠ "assistant") →
      lastAssistantTextMessageContent output = none) ∧
    (∀ (pre post : List AgentMessage) (m : AgentMessage),
      output = pre ++ m :: post → m.role = "assistant" →
      (∀ m' ∈ post, m'.role ≠ "assistant") →
      (m.content = none → lastAssistantTextMessageContent output = none) ∧
      (∀ parts, m.content = some (.arr parts) →
        lastAssistantTextMessageContent output =
          some (String.join (parts.map (fun p => p.text))))) := by
  constructor
  · intro h
    have hn : output.reverse.find? (fun x => x.role == "assistant") = none := by
      rw [List.find?_eq_none]
      intro x hx
      simp only [List.mem_reverse] at hx
      simp [h x hx]
    simp [lastAssistantTextMessageContent, hn]
  · intro pre post m heq hm hpost
    have hf : output.reverse.find? (fun x => x.role == "assistant") = some m := by
      rw [heq]; exact find_last_assistant pre post m hm hpost
    constructor
    · intro hc
      simp [lastAssistantTextMessageContent, hf, jsContentTruthy, hc]
    · intro parts hc
      simp [lastAssistantTextMessageContent, hf, jsContentTruthy, hc]

/-- C10 witness: a user turn followed by an assistant turn with
array-shaped content; the parts' `text` fields are concatenated. -/
theorem lastAssistantTextMessageContent_spec_witness :
    lastAssistantTextMessageContent
      [⟨"user", some (.str "hi")⟩, ⟨"assistant", some (.arr [⟨"He"⟩, ⟨"llo"⟩])⟩] =
      some (String.join ([⟨"He"⟩, ⟨"llo"⟩].map (fun p : TextPart => p.text))) :=
  ((lastAssistantTextMessageContent_spec
      [⟨"user", some (.str "hi")⟩, ⟨"assistant", some (.arr [⟨"He"⟩, ⟨"llo"⟩])⟩]).2
    [⟨"user", some (.str "hi")⟩] [] ⟨"assistant", some (.arr [⟨"He"⟩, ⟨"llo"⟩])⟩
    rfl rfl (by simp)).2 [⟨"He"⟩, ⟨"llo"⟩] rfl

end V0Clone
